import Mathlib

/-!
# Verification of the `choppy` zonal-statistics pipeline

Shallow embedding of `src/choppyzs/netcdf.py` (class `NetCDF2Stats`) and
`src/choppyzs/ts2stats.py` (function `ts_to_stats`).

External geospatial libraries (patoolib, geopandas, xarray, rasterstats,
fiona) are opaque services: they are modelled by an environment record
(`Env`) supplying a file-existence predicate, archive contents, vector rows,
raster time stamps and raster grids, and by a zonal-statistics function
parameter `zs` whose only assumed contract, where needed, is that it
produces one statistics row per boundary polygon.  Side effects against the
outside world (archive extraction, existence checks, file reads, file
writes) are recorded as an explicit event trace.  Python exceptions are
modelled by `Except PyError`.
-/

namespace Choppy

/-- A calendar date `(year, month, day)`.  `str(numpy datetime64)` followed by
`re.sub('T.*$', '', ·)` yields the date part, and `datetime.fromisoformat`
comparison is exactly lexicographic comparison of these triples. -/
structure Date where
  year : Int
  month : Nat
  day : Nat
deriving DecidableEq, Repr

/-- Lexicographic `<=` on dates: the comparison
`datetime.fromisoformat(a) <= datetime.fromisoformat(b)` for pure dates. -/
def Date.le (a b : Date) : Bool :=
  a.year < b.year ||
    (a.year == b.year &&
      (a.month < b.month || (a.month == b.month && a.day ≤ b.day)))

/-- Observable side effects against the outside world. -/
inductive Event where
  | extractArchive (path : String)
  | checkFileExists (path : String)
  | readVector (path : String)
  | openRaster (path : String)
  | writeFile (path : String)
deriving DecidableEq, Repr

/-- Python exceptions that the two modules can raise. -/
inductive PyError where
  /-- `RuntimeError(msg)`: the output-format configuration check. -/
  | runtimeError (msg : String)
  /-- `TypeError`: `str + None` concatenation. -/
  | typeError
  /-- patoolib failure: the archive path cannot be extracted. -/
  | extractionError (path : String)
  /-- The missing-file error raised by `check_if_file_exists`. -/
  | missingFileError (path : String)
  /-- `AttributeError`: `self.shape_file` was never assigned (no `.shp`). -/
  | attributeError
  /-- `IndexError`: `list(...)[0]` on an empty glob result. -/
  | indexError
  /-- `ValueError`: `pd.concat` on an empty list of frames. -/
  | valueError
deriving DecidableEq, Repr

/-- Python's `sep in s` membership test on a string, for a one-char `sep`. -/
def pyContains (s : String) (c : Char) : Bool :=
  s.data.contains c

/-- Helper for `pySplit`: structural recursion over the character list. -/
def pySplitAux (sep : Char) : List Char → List Char → List String
  | [], acc => [String.mk acc.reverse]
  | c :: cs, acc =>
      if c = sep then String.mk acc.reverse :: pySplitAux sep cs []
      else pySplitAux sep cs (c :: acc)

/-- Python's `s.split(sep)` for a one-char separator. -/
def pySplit (s : String) (sep : Char) : List String :=
  pySplitAux sep s.data []

/-- Python's `s.endswith(sfx)`. -/
def pyEndsWith (s sfx : String) : Bool :=
  sfx.data.isSuffixOf s.data

/-- `os.path.join` for the combinations the code uses. -/
def pathJoin (a b : String) : String :=
  a ++ "/" ++ b

/-- The `statistics` attribute: a plain string when it has no comma,
otherwise the list produced by `statistics.split(',')`
(netcdf.py lines 39-42). -/
inductive StatsSpec where
  | str (s : String)
  | list (l : List String)
deriving DecidableEq, Repr

/-- `if ',' in statistics: statistics.split(',') else: statistics`. -/
def parseStatistics (statistics : String) : StatsSpec :=
  if pyContains statistics ',' then .list (pySplit statistics ',')
  else .str statistics

/-- The argument bundle handed to the external `zonal_stats` routine
(besides the vector source, the grid values and the affine transform,
which the abstract grid type `γ` absorbs). -/
structure ZSCallArgs where
  stats : StatsSpec
  nodata : Int
  geojson_out : Bool
  all_touched : Bool
deriving DecidableEq, Repr

/-- The opaque external world: which paths exist, what an archive extracts
to, and what the vector / raster readers return.  `ρ` is the type of one
boundary-polygon attribute row, `γ` the type of one 2-D raster slice. -/
structure Env (ρ γ : Type) where
  fileExists : String → Bool
  archiveFiles : String → List String
  vectorData : String → List ρ
  rasterTimes : String → List Date
  rasterGrid : String → Date → γ

/-- One row of an accumulated dataframe: the boundary-attribute part and the
statistics part (either may be missing padding from `pd.concat(axis=1)` on
frames of unequal length), plus the `time` column. -/
structure Row (ρ σ : Type) where
  attrs : Option ρ
  stats : Option σ
  time : Date
deriving DecidableEq, Repr

/-- `pd.concat([a, b], axis=1)` on two default-indexed frames: rows are
aligned positionally and the result has `max` length, missing positions
becoming nulls. -/
def concatAxis1 {α β : Type} : List α → List β → List (Option α × Option β)
  | [], ys => ys.map (fun y => (none, some y))
  | x :: xs, [] => (some x, none) :: concatAxis1 xs []
  | x :: xs, y :: ys => (some x, some y) :: concatAxis1 xs ys

/-! ## `NetCDF2Stats` (netcdf.py) -/

/-- The accepted output formats (netcdf.py line 35):
`['xlsx', 'csv', 'tsv', 'none', None]`.  `Option String` models
str-or-None. -/
def acceptedFormats : List (Option String) :=
  [some "xlsx", some "csv", some "tsv", some "none", none]

/-- Python's `f'{v}'` for a str-or-None value. -/
def pyFmtStr : Option String → String
  | some s => s
  | none => "None"

/-- The arguments of `NetCDF2Stats.__init__`, with the source's defaults
filled in by `defaultInitArgs`. -/
structure InitArgs where
  shape_archive : String
  nc_file : String
  output_dir : String
  statistics : String
  output_file : String
  all_touched : Bool
  output_format : Option String
  geometry : Bool

/-- The default statistics string of `NetCDF2Stats.__init__`. -/
def defaultStatisticsStr : String :=
  "min,max,mean,median,majority,sum,std,count,range"

/-- `NetCDF2Stats(shape_archive, nc_file)` with every keyword argument left
at its default (netcdf.py lines 30-33). -/
def defaultInitArgs (shape_archive nc_file : String) : InitArgs where
  shape_archive := shape_archive
  nc_file := nc_file
  output_dir := "."
  statistics := defaultStatisticsStr
  output_file := "zonal_stats"
  all_touched := false
  output_format := some "csv"
  geometry := false

/-- The temporary working directory created by the constructor. -/
def workdir : String := "/tmpdir"

/-- The state of a successfully constructed `NetCDF2Stats` object.
`σ` is the type of one statistics row returned by `zonal_stats`. -/
structure NCState (ρ σ γ : Type) where
  output_format : Option String
  statistics : StatsSpec
  all_touched : Bool
  shape_archive : String
  nc_file : String
  output_path : String
  geojson : Bool
  geometry : Bool
  shape_file : String
  shape_df : List ρ
  nc_times : List Date
  nc_grid : Date → γ
  df_list : List (List (Row ρ σ))

/-- `for file_name in os.listdir(...): if file_name.endswith('.shp'):
self.shape_file = ...` — the loop leaves the *last* matching entry. -/
def findShp (files : List String) : Option String :=
  (files.filter (fun f => pyEndsWith f ".shp")).getLast?

/-- `check_if_file_exists`.  Modelled from the spec: `imagediff.py` is not
in the sources; per the spec a missing-file error is raised when the path
does not exist (spec section 7(b)). -/
def check_if_file_exists (fs : String → Bool) (path : String) :
    Except PyError Unit :=
  if fs path then .ok () else .error (.missingFileError path)

/-- `NetCDF2Stats.__init__` (netcdf.py lines 30-64), as a trace of events
plus either the constructed state or the exception raised.  Statement
order follows the source: format check; statistics parse; output-file name
concatenation (a `TypeError` when the format is `None`); archive
extraction; `.shp` scan; the two `check_if_file_exists` calls; reading the
vector file; opening the raster. -/
def init (σ : Type) {ρ γ : Type} (env : Env ρ γ) (a : InitArgs) :
    List Event × Except PyError (NCState ρ σ γ) :=
  if acceptedFormats.contains a.output_format = false then
    ([], .error (.runtimeError
      ("Format " ++ pyFmtStr a.output_format ++ " is not acceptable!")))
  else
    match a.output_format with
    | none => ([], .error .typeError)
    | some fmt =>
      let statistics := parseStatistics a.statistics
      let outFileName := a.output_file ++ "." ++ fmt
      if env.fileExists a.shape_archive = false then
        ([.extractArchive a.shape_archive],
         .error (.extractionError a.shape_archive))
      else
        let extracted := env.archiveFiles a.shape_archive
        let fsAfter : String → Bool := fun p =>
          env.fileExists p || (extracted.map (pathJoin workdir)).contains p
        match findShp extracted with
        | none => ([.extractArchive a.shape_archive], .error .attributeError)
        | some shpName =>
          let shape_file := pathJoin workdir shpName
          match check_if_file_exists fsAfter shape_file with
          | .error e =>
            ([.extractArchive a.shape_archive, .checkFileExists shape_file],
             .error e)
          | .ok _ =>
            match check_if_file_exists fsAfter a.nc_file with
            | .error e =>
              ([.extractArchive a.shape_archive, .checkFileExists shape_file,
                .checkFileExists a.nc_file], .error e)
            | .ok _ =>
              ([.extractArchive a.shape_archive, .checkFileExists shape_file,
                .checkFileExists a.nc_file, .readVector shape_file,
                .openRaster a.nc_file],
               .ok
                 { output_format := some fmt
                   statistics := statistics
                   all_touched := a.all_touched
                   shape_archive := a.shape_archive
                   nc_file := a.nc_file
                   output_path := pathJoin a.output_dir outFileName
                   geojson := some fmt == (some "json" : Option String)
                   geometry := a.geometry
                   shape_file := shape_file
                   shape_df := env.vectorData shape_file
                   nc_times := env.rasterTimes a.nc_file
                   nc_grid := env.rasterGrid a.nc_file
                   df_list := [] })

/-- The keyword arguments `NetCDF2Stats.chop` passes to `zonal_stats`
(netcdf.py lines 87-92): the configured statistics, `nodata=-999`,
`geojson_out=self.geojson`, `all_touched=self.all_touched`. -/
def zsArgsOf {ρ σ γ : Type} (st : NCState ρ σ γ) : ZSCallArgs where
  stats := st.statistics
  nodata := -999
  geojson_out := st.geojson
  all_touched := st.all_touched

/-- The time-selection logic of `NetCDF2Stats.chop` (netcdf.py lines
71-77).  `start_year` is an int-or-None tested for Python truthiness (so
`0` falls through); `time_range` is the already-split `"start-end"` pair.
The `start_year` branch keeps the dates `>=` January 1 of that year; the
`time_range` branch is the Python slice `org_nc_times[start:end]`. -/
def selectTimes (start_year : Option Int) (time_range : Option (Nat × Nat))
    (times : List Date) : List Date :=
  match start_year, time_range with
  | some y, tr =>
      if y = 0 then
        match tr with
        | some (s, e) => (times.drop s).take (e - s)
        | none => times
      else
        times.filter (fun d => Date.le ⟨y, 1, 1⟩ d)
  | none, some (s, e) => (times.drop s).take (e - s)
  | none, none => times

/-- One iteration of the `for nc_time in nc_times` loop body (netcdf.py
lines 93-100): build `sd` from the `zonal_stats` rows, concatenate with the
boundary dataframe along axis 1, set the `time` column, and drop the
geometry column (`dg`) unless `geometry` is set. -/
def timeBlock {ρ σ : Type} (shape_df : List ρ) (sd : List σ) (t : Date)
    (geometry : Bool) (dg : ρ → ρ) : List (Row ρ σ) :=
  (concatAxis1 shape_df sd).map fun x =>
    { attrs := if geometry then x.1 else x.1.map dg
      stats := x.2
      time := t }

/-- The per-time-step dataframes one `chop` call appends, in loop order.
`zs` is the external `zonal_stats` routine; `dg` drops the geometry
column from a boundary row. -/
def chopBlocks {ρ σ γ : Type} (zs : ZSCallArgs → γ → List σ) (dg : ρ → ρ)
    (start_year : Option Int) (time_range : Option (Nat × Nat))
    (st : NCState ρ σ γ) : List (List (Row ρ σ)) :=
  (selectTimes start_year time_range st.nc_times).map fun t =>
    timeBlock st.shape_df (zs (zsArgsOf st) (st.nc_grid t)) t st.geometry dg

/-- `NetCDF2Stats.chop` (netcdf.py lines 66-100): select the time steps and
append one dataframe per selected step to `self.df_list`. -/
def chop {ρ σ γ : Type} (zs : ZSCallArgs → γ → List σ) (dg : ρ → ρ)
    (start_year : Option Int) (time_range : Option (Nat × Nat))
    (st : NCState ρ σ γ) : NCState ρ σ γ :=
  { st with df_list := st.df_list ++ chopBlocks zs dg start_year time_range st }

/-- `NetCDF2Stats.export` (netcdf.py lines 102-113): concatenate
`self.df_list` (a `ValueError` when it is empty, as `pd.concat` raises on
an empty list), write a file for the `csv` / `tsv` / `xlsx` formats, only
log for `none`, and return the concatenated dataframe. -/
def exportDf {ρ σ γ : Type} (st : NCState ρ σ γ) :
    List Event × Except PyError (List (Row ρ σ)) :=
  if st.df_list.isEmpty then ([], .error .valueError)
  else
    let df := st.df_list.flatten
    if st.output_format == some "csv" then ([.writeFile st.output_path], .ok df)
    else if st.output_format == some "tsv" then
      ([.writeFile st.output_path], .ok df)
    else if st.output_format == some "xlsx" then
      ([.writeFile st.output_path], .ok df)
    else ([], .ok df)

/-! ## `ts_to_stats` (ts2stats.py) -/

/-- The statistics list of ts2stats.py line 102:
`'min,max,mean,median,majority,sum,std,count,range'.split(',')`. -/
def ts2statsStatistics : List String :=
  pySplit "min,max,mean,median,majority,sum,std,count,range" ','

/-- The `zonal_stats` arguments of ts2stats.py lines 100-105: the fixed
statistics list, `nodata=-9999`, `geojson_out=False`, `all_touched=True`. -/
def ts2statsZSArgs : ZSCallArgs where
  stats := .list ts2statsStatistics
  nodata := -9999
  geojson_out := false
  all_touched := true

/-- The temporary directory used by `read_shapefile`. -/
def tsWorkdir : String := "/ts_tmpdir"

/-- The inner `chop` of `ts_to_stats` (ts2stats.py lines 85-117): for every
time stamp, call `zonal_stats`, concatenate with the boundary dataframe
along axis 1, set the `time` column, and finally concatenate all blocks
(`pd.concat` raising `ValueError` on an empty list). -/
def tsChop {ρ σ γ : Type} (zs : ZSCallArgs → γ → List σ)
    (boundaries_df : List ρ) (grids : Date → γ) (times : List Date) :
    Except PyError (List (Row ρ σ)) :=
  if times.isEmpty then .error .valueError
  else
    .ok <| (times.map fun t =>
      (concatAxis1 boundaries_df (zs ts2statsZSArgs (grids t))).map fun x =>
        { attrs := x.1, stats := x.2, time := t : Row ρ σ }).flatten

/-- `ts_to_stats` (ts2stats.py lines 29-132): check that both input paths
exist, extract the archive, take the first `.shp` of the glob (an
`IndexError` when there is none), read the boundaries and drop their
geometry column (`dg`), open the time series, and chop. -/
def ts_to_stats {ρ γ : Type} (σ : Type) (env : Env ρ γ)
    (zs : ZSCallArgs → γ → List σ) (dg : ρ → ρ)
    (shape_file_archive ts_file : String) :
    List Event × Except PyError (List (Row ρ σ)) :=
  match check_if_file_exists env.fileExists shape_file_archive with
  | .error e => ([.checkFileExists shape_file_archive], .error e)
  | .ok _ =>
    match check_if_file_exists env.fileExists ts_file with
    | .error e =>
      ([.checkFileExists shape_file_archive, .checkFileExists ts_file],
       .error e)
    | .ok _ =>
      let tr0 := [Event.checkFileExists shape_file_archive,
                  Event.checkFileExists ts_file,
                  Event.extractArchive shape_file_archive]
      let extracted := env.archiveFiles shape_file_archive
      match (extracted.filter (fun f => pyEndsWith f ".shp")).head? with
      | none => (tr0, .error .indexError)
      | some shpName =>
        let shape_file := pathJoin tsWorkdir shpName
        let boundaries_df := (env.vectorData shape_file).map dg
        let tr1 := tr0 ++ [Event.readVector shape_file,
                           Event.openRaster ts_file]
        (tr1, tsChop zs boundaries_df (env.rasterGrid ts_file)
                (env.rasterTimes ts_file))

/-! ## Helper lemmas -/

theorem concatAxis1_eq_zip {α β : Type} (xs : List α) (ys : List β)
    (h : xs.length = ys.length) :
    concatAxis1 xs ys = (xs.zip ys).map (fun p => (some p.1, some p.2)) := by
  induction xs generalizing ys with
  | nil =>
    cases ys with
    | nil => rfl
    | cons y ys => simp at h
  | cons x xs ih =>
    cases ys with
    | nil => simp at h
    | cons y ys =>
      simp only [concatAxis1, List.zip_cons_cons, List.map_cons]
      rw [ih ys (by simpa using h)]

theorem concatAxis1_length {α β : Type} (xs : List α) (ys : List β) :
    (concatAxis1 xs ys).length = max xs.length ys.length := by
  induction xs generalizing ys with
  | nil => simp [concatAxis1]
  | cons x xs ih =>
    cases ys with
    | nil =>
      simpa [concatAxis1] using ih []
    | cons y ys =>
      simpa [concatAxis1, Nat.succ_max_succ] using ih ys

theorem timeBlock_length {ρ σ : Type} (shape_df : List ρ) (sd : List σ)
    (t : Date) (geometry : Bool) (dg : ρ → ρ) :
    (timeBlock shape_df sd t geometry dg).length =
      max shape_df.length sd.length := by
  simp [timeBlock, concatAxis1_length]

theorem timeBlock_proj {ρ σ : Type} (shape_df : List ρ) (sd : List σ)
    (t : Date) (geometry : Bool) (dg : ρ → ρ)
    (h : sd.length = shape_df.length) :
    (timeBlock shape_df sd t geometry dg).map (fun r => (r.attrs, r.time)) =
      shape_df.map (fun p => (some (if geometry then p else dg p), t)) := by
  unfold timeBlock
  rw [concatAxis1_eq_zip shape_df sd h.symm, List.map_map, List.map_map]
  have hfst := List.map_fst_zip shape_df sd (le_of_eq h.symm)
  conv_rhs => rw [← hfst, List.map_map]
  apply List.map_congr_left
  intro x _
  by_cases hg : geometry <;> simp [hg, Function.comp]

theorem timeBlock_attrs {ρ σ : Type} (shape_df : List ρ) (sd : List σ)
    (t : Date) (geometry : Bool) (dg : ρ → ρ)
    (h : sd.length = shape_df.length) :
    (timeBlock shape_df sd t geometry dg).map Row.attrs =
      shape_df.map (fun p => some (if geometry then p else dg p)) := by
  have h2 := congrArg (List.map Prod.fst)
    (timeBlock_proj shape_df sd t geometry dg h)
  simpa [List.map_map, Function.comp] using h2

/-- Inversion of a successful `init`: how each field of the constructed
state is determined by the constructor arguments and the environment. -/
theorem init_ok_inv {ρ γ : Type} (σ : Type) (env : Env ρ γ) (a : InitArgs)
    (tr : List Event) (st : NCState ρ σ γ)
    (h : init σ env a = (tr, .ok st)) :
    st.output_format = a.output_format ∧
    st.statistics = parseStatistics a.statistics ∧
    st.all_touched = a.all_touched ∧
    st.geojson = (a.output_format == some "json") ∧
    st.geometry = a.geometry ∧
    st.shape_df = env.vectorData st.shape_file ∧
    st.nc_times = env.rasterTimes a.nc_file ∧
    st.nc_grid = env.rasterGrid a.nc_file ∧
    st.df_list = [] := by
  unfold init at h
  split at h
  · simp at h
  · split at h
    · simp at h
    · rename_i fmt heq
      split at h
      · simp at h
      · dsimp only at h
        split at h
        · simp at h
        · rename_i shpName hshp
          split at h
          · simp at h
          · split at h
            · simp at h
            · rw [Prod.mk.injEq] at h
              obtain ⟨h1, h2⟩ := h
              injection h2 with h2
              subst h2
              simp [heq]

/-! ## Shared concrete fixtures for witnesses -/

/-- The three-stamp time series of the spec's examples. -/
def demoTimes : List Date := [⟨2000, 1, 1⟩, ⟨2000, 6, 1⟩, ⟨2001, 1, 1⟩]

/-- A concrete environment: an archive `a.zip` holding one shapefile and a
raster `d.nc` with the demo time stamps, one boundary polygon (row `7`). -/
def demoEnv : Env Nat Nat where
  fileExists := fun p => p == "a.zip" || p == "d.nc"
  archiveFiles := fun _ => ["b.shp", "c.dbf"]
  vectorData := fun _ => [7]
  rasterTimes := fun _ => demoTimes
  rasterGrid := fun _ _ => 0

/-- A `zonal_stats` stand-in producing one stats row per polygon of
`demoEnv`. -/
def demoZs : ZSCallArgs → Nat → List Nat := fun _ _ => [5]

/-! ## C2 -/

/-- **C2**: for every `output_format` outside the accepted set, constructing
`NetCDF2Stats` raises the configuration `RuntimeError` immediately: the
event trace is empty, so the archive was not extracted and no raster or
vector file was opened or read. -/
theorem C2_invalid_format_rejected_before_io {ρ γ : Type} (σ : Type)
    (env : Env ρ γ) (a : InitArgs)
    (h : acceptedFormats.contains a.output_format = false) :
    init σ env a =
      ([], .error (.runtimeError
        ("Format " ++ pyFmtStr a.output_format ++ " is not acceptable!"))) := by
  unfold init
  rw [if_pos h]

/-- Witness for C2: `output_format="yaml"` with an otherwise well-formed
environment is rejected with an empty event trace. -/
theorem C2_witness :
    acceptedFormats.contains (some "yaml") = false ∧
    init Nat demoEnv
        { defaultInitArgs "a.zip" "d.nc" with output_format := some "yaml" } =
      ([], .error (.runtimeError "Format yaml is not acceptable!")) :=
  ⟨by decide, C2_invalid_format_rejected_before_io Nat demoEnv _ (by decide)⟩

/-! ## C10 -/

/-- **C10**: `output_format=None` passes the format-validity check (`None`
is in the accepted list), but the constructor then always fails with a
`TypeError` while building the output file name
(`output_file + '.' + output_format`), so no instance can be constructed
with `output_format=None`. -/
theorem C10_none_format_always_type_error {ρ γ : Type} (σ : Type)
    (env : Env ρ γ) (a : InitArgs) (h : a.output_format = none) :
    acceptedFormats.contains a.output_format = true ∧
    init σ env a = ([], .error .typeError) := by
  obtain ⟨sa, nc, od, stt, onm, tch, ofmt, geo⟩ := a
  cases h
  exact ⟨rfl, rfl⟩

/-- Witness for C10 at a concrete argument record. -/
theorem C10_witness :
    acceptedFormats.contains
        (InitArgs.output_format
          { defaultInitArgs "a.zip" "d.nc" with output_format := none }) =
      true ∧
    init Nat demoEnv
        { defaultInitArgs "a.zip" "d.nc" with output_format := none } =
      ([], .error .typeError) :=
  C10_none_format_always_type_error Nat demoEnv _ rfl

/-! ## C4 -/

/-- **C4**: with `output_format="none"` and a non-empty accumulation list,
`export` performs no write event yet still returns the full concatenation
of `self.df_list` — the same table the `csv` serialization path would
produce. -/
theorem C4_none_format_no_write {ρ σ γ : Type} (st : NCState ρ σ γ)
    (h : st.output_format = some "none") (h2 : st.df_list ≠ []) :
    (exportDf st).1 = [] ∧
    (exportDf st).2 = .ok st.df_list.flatten ∧
    (exportDf { st with output_format := some "csv" }).2 = (exportDf st).2 := by
  unfold exportDf
  rw [h]
  simp [h2]

/-- Witness for C4: a state holding one already-chopped one-row block. -/
theorem C4_witness :
    (exportDf (σ := Nat)
        { output_format := some "none", statistics := .list ts2statsStatistics
          all_touched := false, shape_archive := "a.zip", nc_file := "d.nc"
          output_path := "./zonal_stats.none", geojson := false
          geometry := false, shape_file := "/tmpdir/b.shp", shape_df := [7]
          nc_times := demoTimes, nc_grid := fun _ => (0 : Nat)
          df_list := [[⟨some 7, some 5, ⟨2000, 1, 1⟩⟩]] }).1 = [] :=
  (C4_none_format_no_write _ rfl (by decide)).1

/-- A concrete already-constructed object state over `demoEnv`. -/
def demoState : NCState Nat Nat Nat where
  output_format := some "none"
  statistics := .list ts2statsStatistics
  all_touched := false
  shape_archive := "a.zip"
  nc_file := "d.nc"
  output_path := "./zonal_stats.none"
  geojson := false
  geometry := false
  shape_file := "/tmpdir/b.shp"
  shape_df := [7]
  nc_times := demoTimes
  nc_grid := fun _ => 0
  df_list := []

/-! ## C5 -/

/-- Comparing a valid date against January 1 of year `y` is exactly
comparing the years. -/
theorem date_le_jan1 (y : Int) (d : Date) (hm : 1 ≤ d.month)
    (hd : 1 ≤ d.day) : Date.le ⟨y, 1, 1⟩ d = decide (y ≤ d.year) := by
  obtain ⟨y', m, dd⟩ := d
  apply Bool.eq_iff_iff.mpr
  simp only [Date.le] at hm hd ⊢
  simp
  omega

/-- **C5**: with `start_year` given (a real year, `1 ≤ y`) and valid dates,
`chop` selects exactly the time steps whose date is on or after January 1
of that year; in particular with stamps
`[2000-01-01, 2000-06-01, 2001-01-01]` and `start_year=2001`, exactly the
`2001-01-01` slice is processed. -/
theorem C5_start_year_filter :
    (∀ (y : Int) (time_range : Option (Nat × Nat)) (times : List Date),
      1 ≤ y → (∀ d ∈ times, 1 ≤ d.month ∧ 1 ≤ d.day) →
      selectTimes (some y) time_range times =
        times.filter (fun d => decide (y ≤ d.year))) ∧
    (∀ {ρ σ γ : Type} (st : NCState ρ σ γ) (zs : ZSCallArgs → γ → List σ)
        (dg : ρ → ρ), st.nc_times = demoTimes →
      (chop zs dg (some 2001) none st).df_list =
        st.df_list ++
          [timeBlock st.shape_df (zs (zsArgsOf st) (st.nc_grid ⟨2001, 1, 1⟩))
            ⟨2001, 1, 1⟩ st.geometry dg]) := by
  constructor
  · intro y tr times hy hv
    simp only [selectTimes]
    rw [if_neg (by omega)]
    exact List.filter_congr fun d hd =>
      date_le_jan1 y d (hv d hd).1 (hv d hd).2
  · intro ρ σ γ st zs dg h
    unfold chop chopBlocks
    rw [h]
    rfl

/-- Witness for C5 on the spec's example series. -/
theorem C5_witness :
    ((1 : Int) ≤ 2001 ∧ ∀ d ∈ demoTimes, 1 ≤ d.month ∧ 1 ≤ d.day) ∧
    selectTimes (some 2001) none demoTimes =
      demoTimes.filter (fun d => decide ((2001 : Int) ≤ d.year)) ∧
    selectTimes (some 2001) none demoTimes = [⟨2001, 1, 1⟩] :=
  ⟨⟨by decide, by decide⟩,
   C5_start_year_filter.1 2001 none demoTimes (by decide) (by decide),
   by decide⟩

/-! ## C6 -/

/-- **C6**: with `time_range="start-end"` given and no `start_year`, `chop`
selects exactly the time steps with indices in the half-open range
`[start, end)`; in particular with the same stamps and
`time_range="1-2"`, exactly the `2000-06-01` slice (index 1) is
retained. -/
theorem C6_time_range_slice :
    (∀ (times : List Date) (s e i : Nat),
      (selectTimes none (some (s, e)) times)[i]? =
        if s + i < e then times[s + i]? else none) ∧
    (∀ {ρ σ γ : Type} (st : NCState ρ σ γ) (zs : ZSCallArgs → γ → List σ)
        (dg : ρ → ρ), st.nc_times = demoTimes →
      (chop zs dg none (some (1, 2)) st).df_list =
        st.df_list ++
          [timeBlock st.shape_df (zs (zsArgsOf st) (st.nc_grid ⟨2000, 6, 1⟩))
            ⟨2000, 6, 1⟩ st.geometry dg]) := by
  constructor
  · intro times s e i
    show ((times.drop s).take (e - s))[i]? = _
    rw [List.getElem?_take, List.getElem?_drop]
    by_cases h : s + i < e
    · rw [if_pos (by omega), if_pos h]
    · rw [if_neg (by omega), if_neg h]
  · intro ρ σ γ st zs dg h
    unfold chop chopBlocks
    rw [h]
    rfl

/-- Witness for C6 on the spec's example series, with a concrete state. -/
theorem C6_witness :
    (selectTimes none (some (1, 2)) demoTimes)[0]? =
      (if 1 + 0 < 2 then demoTimes[1 + 0]? else none) ∧
    selectTimes none (some (1, 2)) demoTimes = [⟨2000, 6, 1⟩] ∧
    (chop demoZs id none (some (1, 2)) demoState).df_list =
      demoState.df_list ++
        [timeBlock demoState.shape_df
          (demoZs (zsArgsOf demoState) (demoState.nc_grid ⟨2000, 6, 1⟩))
          ⟨2000, 6, 1⟩ demoState.geometry id] :=
  ⟨C6_time_range_slice.1 demoTimes 1 2 0, by decide,
   C6_time_range_slice.2 demoState demoZs id rfl⟩

/-- `export` with a non-empty accumulation list returns the concatenation
of the accumulated per-time-step tables, whatever the output format. -/
theorem exportDf_ok {ρ σ γ : Type} (st : NCState ρ σ γ)
    (h : st.df_list ≠ []) :
    (exportDf st).2 = .ok st.df_list.flatten := by
  unfold exportDf
  rw [if_neg (by simpa using h)]
  dsimp only
  split
  · rfl
  · split
    · rfl
    · split
      · rfl
      · rfl

/-! ## C1 -/

/-- **C1**: whenever `zonal_stats` returns one row per boundary polygon,
the final table has exactly (number of polygons) × (number of selected
time steps) rows — for `export` after `chop` on a freshly constructed
object, for the inner `chop` of `ts_to_stats`, and `ts_to_stats` itself
returns that inner table. -/
theorem C1_row_count :
    (∀ {ρ σ γ : Type} (st : NCState ρ σ γ) (zs : ZSCallArgs → γ → List σ)
        (dg : ρ → ρ) (sy : Option Int) (trg : Option (Nat × Nat)),
      st.df_list = [] →
      (∀ a g, (zs a g).length = st.shape_df.length) →
      selectTimes sy trg st.nc_times ≠ [] →
      ∃ tbl, (exportDf (chop zs dg sy trg st)).2 = .ok tbl ∧
        tbl.length =
          st.shape_df.length * (selectTimes sy trg st.nc_times).length) ∧
    (∀ {ρ σ γ : Type} (zs : ZSCallArgs → γ → List σ) (bdf : List ρ)
        (grids : Date → γ) (times : List Date),
      (∀ g, (zs ts2statsZSArgs g).length = bdf.length) →
      times ≠ [] →
      ∃ tbl, tsChop zs bdf grids times = .ok tbl ∧
        tbl.length = bdf.length * times.length) ∧
    (∀ {ρ σ γ : Type} (env : Env ρ γ) (zs : ZSCallArgs → γ → List σ)
        (dg : ρ → ρ) (arch ts shpName : String),
      env.fileExists arch = true → env.fileExists ts = true →
      ((env.archiveFiles arch).filter
          (fun f => pyEndsWith f ".shp")).head? = some shpName →
      (ts_to_stats σ env zs dg arch ts).2 =
        tsChop zs ((env.vectorData (pathJoin tsWorkdir shpName)).map dg)
          (env.rasterGrid ts) (env.rasterTimes ts)) := by
  refine ⟨?_, ?_, ?_⟩
  · intro ρ σ γ st zs dg sy trg h0 hzs hsel
    have hdf : (chop zs dg sy trg st).df_list = chopBlocks zs dg sy trg st := by
      simp [chop, h0]
    have hbne : chopBlocks zs dg sy trg st ≠ [] := by
      unfold chopBlocks
      simpa using hsel
    refine ⟨(chopBlocks zs dg sy trg st).flatten, ?_, ?_⟩
    · rw [show (exportDf (chop zs dg sy trg st)).2 =
            .ok (chop zs dg sy trg st).df_list.flatten from
          exportDf_ok _ (by rw [hdf]; exact hbne), hdf]
    · rw [List.length_flatten]
      unfold chopBlocks
      rw [List.map_map]
      have hconst : (List.length ∘ fun t =>
          timeBlock st.shape_df (zs (zsArgsOf st) (st.nc_grid t)) t
            st.geometry dg) = fun _ => st.shape_df.length := by
        funext t
        simp [Function.comp, timeBlock_length, hzs]
      rw [hconst]
      simp [List.map_const, Nat.mul_comm]
  · intro ρ σ γ zs bdf grids times hzs htne
    unfold tsChop
    rw [if_neg (by simpa using htne)]
    refine ⟨_, rfl, ?_⟩
    rw [List.length_flatten, List.map_map]
    have hconst : (List.length ∘ fun t =>
        (concatAxis1 bdf (zs ts2statsZSArgs (grids t))).map
          (fun x => { attrs := x.1, stats := x.2, time := t : Row ρ σ })) =
        fun _ => bdf.length := by
      funext t
      simp [Function.comp, concatAxis1_length, hzs]
    rw [hconst]
    simp [List.map_const, Nat.mul_comm]
  · intro ρ σ γ env zs dg arch ts shpName harch hts hshp
    unfold ts_to_stats check_if_file_exists
    rw [harch, hts]
    dsimp only
    rw [hshp]
    simp

/-- Witness for C1: one polygon, the three demo time steps, three rows. -/
theorem C1_witness :
    (∃ tbl, (exportDf (chop demoZs id none none demoState)).2 = .ok tbl ∧
      tbl.length =
        demoState.shape_df.length *
          (selectTimes none none demoState.nc_times).length) ∧
    (∃ tbl, tsChop demoZs [7] (fun _ => (0 : Nat)) demoTimes = .ok tbl ∧
      tbl.length = [7].length * demoTimes.length) ∧
    (ts_to_stats Nat demoEnv demoZs id "a.zip" "d.nc").2 =
      tsChop demoZs ((demoEnv.vectorData (pathJoin tsWorkdir "b.shp")).map id)
        (demoEnv.rasterGrid "d.nc") (demoEnv.rasterTimes "d.nc") :=
  ⟨C1_row_count.1 demoState demoZs id none none rfl (fun _ _ => rfl)
      (by decide),
   C1_row_count.2.1 demoZs [7] (fun _ => 0) demoTimes (fun _ => rfl)
      (by decide),
   C1_row_count.2.2 demoEnv demoZs id "a.zip" "d.nc" "b.shp" rfl rfl rfl⟩

/-! ## C7 -/

/-- **C7**: every row of the final table corresponds to exactly one
(boundary polygon, time step) pair: the table is the concatenation, one
block per selected time step in time-step order, of blocks carrying the
same boundary polygons in the same order, each row tagged with its
block's time; likewise for the inner `chop` of `ts_to_stats`. -/
theorem C7_one_row_per_pair :
    (∀ {ρ σ γ : Type} (st : NCState ρ σ γ) (zs : ZSCallArgs → γ → List σ)
        (dg : ρ → ρ) (sy : Option Int) (trg : Option (Nat × Nat)),
      st.df_list = [] →
      (∀ a g, (zs a g).length = st.shape_df.length) →
      ((chop zs dg sy trg st).df_list.flatten.map
          (fun r => (r.attrs, r.time)) =
        ((selectTimes sy trg st.nc_times).map (fun t =>
          st.shape_df.map (fun p =>
            (some (if st.geometry then p else dg p), t)))).flatten ∧
       ∀ b ∈ chopBlocks zs dg sy trg st,
         b.map Row.attrs =
           st.shape_df.map (fun p =>
             some (if st.geometry then p else dg p)))) ∧
    (∀ {ρ σ γ : Type} (zs : ZSCallArgs → γ → List σ) (bdf : List ρ)
        (grids : Date → γ) (times : List Date) (tbl : List (Row ρ σ)),
      (∀ g, (zs ts2statsZSArgs g).length = bdf.length) →
      tsChop zs bdf grids times = .ok tbl →
      tbl.map (fun r => (r.attrs, r.time)) =
        (times.map (fun t => bdf.map (fun p => (some p, t)))).flatten) := by
  constructor
  · intro ρ σ γ st zs dg sy trg h0 hzs
    constructor
    · have hdf : (chop zs dg sy trg st).df_list =
          chopBlocks zs dg sy trg st := by
        simp [chop, h0]
      rw [hdf]
      unfold chopBlocks
      rw [List.map_flatten, List.map_map]
      congr 1
      apply List.map_congr_left
      intro t _
      simpa [Function.comp] using
        timeBlock_proj st.shape_df (zs (zsArgsOf st) (st.nc_grid t)) t
          st.geometry dg (hzs _ _)
    · intro b hb
      unfold chopBlocks at hb
      obtain ⟨t, -, rfl⟩ := List.mem_map.mp hb
      exact timeBlock_attrs st.shape_df (zs (zsArgsOf st) (st.nc_grid t)) t
        st.geometry dg (hzs _ _)
  · intro ρ σ γ zs bdf grids times tbl hzs hok
    unfold tsChop at hok
    by_cases he : times.isEmpty
    · rw [if_pos he] at hok
      cases hok
    · rw [if_neg he] at hok
      injection hok with hok
      subst hok
      rw [List.map_flatten, List.map_map]
      congr 1
      apply List.map_congr_left
      intro t _
      simpa [timeBlock, Function.comp] using
        timeBlock_proj bdf (zs ts2statsZSArgs (grids t)) t true id (hzs _)

/-- Witness for C7: the demo object over one polygon and three time
steps, plus the demo ts pipeline. -/
theorem C7_witness :
    ((chop demoZs id none none demoState).df_list.flatten.map
        (fun r => (r.attrs, r.time)) =
      ((selectTimes none none demoState.nc_times).map (fun t =>
        demoState.shape_df.map (fun p =>
          (some (if demoState.geometry then p else id p), t)))).flatten) ∧
    (∀ tbl, tsChop demoZs [7] (fun _ => (0 : Nat)) demoTimes = .ok tbl →
      tbl.map (fun r => (r.attrs, r.time)) =
        (demoTimes.map (fun t => [7].map (fun p => (some p, t)))).flatten) :=
  ⟨(C7_one_row_per_pair.1 demoState demoZs id none none rfl
      (fun _ _ => rfl)).1,
   fun tbl h =>
     C7_one_row_per_pair.2 demoZs [7] (fun _ => 0) demoTimes tbl
       (fun _ => rfl) h⟩

/-! ## C9 -/

/-- Counterexample to C9 as stated: two consecutive `chop` calls on the
same object, each retaining one time step (index ranges `0-1` and `2-3`).
`export` then returns the rows of *both* calls (first conjunct: two rows,
the first stamped with the first call's time), while the second call
itself produced only the single `2001-01-01` row (second conjunct). -/
theorem C9_counterexample :
    (exportDf (chop demoZs id none (some (2, 3))
        (chop demoZs id none (some (0, 1)) demoState))).2 =
      .ok [⟨some 7, some 5, ⟨2000, 1, 1⟩⟩,
           ⟨some 7, some 5, ⟨2001, 1, 1⟩⟩] ∧
    (chopBlocks demoZs id none (some (2, 3))
        (chop demoZs id none (some (0, 1)) demoState)).flatten =
      [⟨some 7, some 5, ⟨2001, 1, 1⟩⟩] := by
  constructor <;> rfl

/-- **C9 (amended)**: the in-memory accumulation list belongs to the
*object*, not to the `chop` invocation: `init` creates it empty for each
new object, each `chop` call appends its blocks after whatever is already
there, and `export` returns the concatenation of everything accumulated
on that object so far (so rows of earlier `chop` calls on the same object
are included). -/
theorem C9_per_object_accumulation :
    (∀ {ρ γ : Type} (σ : Type) (env : Env ρ γ) (a : InitArgs)
        (tr : List Event) (st : NCState ρ σ γ),
      init σ env a = (tr, .ok st) → st.df_list = []) ∧
    (∀ {ρ σ γ : Type} (st : NCState ρ σ γ) (zs : ZSCallArgs → γ → List σ)
        (dg : ρ → ρ) (sy : Option Int) (trg : Option (Nat × Nat)),
      (chop zs dg sy trg st).df_list =
        st.df_list ++ chopBlocks zs dg sy trg st) ∧
    (∀ {ρ σ γ : Type} (st : NCState ρ σ γ) (zs : ZSCallArgs → γ → List σ)
        (dg : ρ → ρ) (sy : Option Int) (trg : Option (Nat × Nat)),
      st.df_list ++ chopBlocks zs dg sy trg st ≠ [] →
      (exportDf (chop zs dg sy trg st)).2 =
        .ok ((st.df_list ++ chopBlocks zs dg sy trg st).flatten)) := by
  refine ⟨?_, ?_, ?_⟩
  · intro ρ γ σ env a tr st h
    exact (init_ok_inv σ env a tr st h).2.2.2.2.2.2.2.2
  · intro ρ σ γ st zs dg sy trg
    rfl
  · intro ρ σ γ st zs dg sy trg h
    have h2 : (chop zs dg sy trg st).df_list ≠ [] := h
    rw [exportDf_ok _ h2]
    rfl

/-- The trace of a successful default construction over `demoEnv`. -/
def demoInitTrace : List Event :=
  [.extractArchive "a.zip", .checkFileExists "/tmpdir/b.shp",
   .checkFileExists "d.nc", .readVector "/tmpdir/b.shp", .openRaster "d.nc"]

/-- The state a successful default construction over `demoEnv` yields. -/
def demoInitState : NCState Nat Nat Nat where
  output_format := some "csv"
  statistics := .list ts2statsStatistics
  all_touched := false
  shape_archive := "a.zip"
  nc_file := "d.nc"
  output_path := "./zonal_stats.csv"
  geojson := false
  geometry := false
  shape_file := "/tmpdir/b.shp"
  shape_df := [7]
  nc_times := demoTimes
  nc_grid := fun _ => 0
  df_list := []

/-- Witness for C9 (amended) at the demo object. -/
theorem C9_witness :
    demoInitState.df_list = [] ∧
    (chop demoZs id none (some (0, 1)) demoState).df_list =
      demoState.df_list ++ chopBlocks demoZs id none (some (0, 1)) demoState ∧
    (exportDf (chop demoZs id none none demoState)).2 =
      .ok ((demoState.df_list ++
        chopBlocks demoZs id none none demoState).flatten) :=
  ⟨C9_per_object_accumulation.1 Nat demoEnv (defaultInitArgs "a.zip" "d.nc")
      demoInitTrace demoInitState rfl,
   C9_per_object_accumulation.2.1 demoState demoZs id none (some (0, 1)),
   C9_per_object_accumulation.2.2 demoState demoZs id none none (by decide)⟩

/-! ## C8 -/

/-- **C8**: the batch class and the standalone function call `zonal_stats`
with different defaults: a default-constructed `NetCDF2Stats` passes
`nodata=-999` and `all_touched=False`, while `ts_to_stats` passes
`nodata=-9999` and `all_touched=True`; the statistics list and
`geojson_out` value they pass agree. -/
theorem C8_divergent_zs_defaults {ρ γ : Type} (σ : Type) (env : Env ρ γ)
    (sa nc : String) (tr : List Event) (st : NCState ρ σ γ)
    (h : init σ env (defaultInitArgs sa nc) = (tr, .ok st)) :
    (zsArgsOf st).nodata = -999 ∧ ts2statsZSArgs.nodata = -9999 ∧
    (zsArgsOf st).all_touched = false ∧ ts2statsZSArgs.all_touched = true ∧
    (zsArgsOf st).stats = ts2statsZSArgs.stats ∧
    (zsArgsOf st).geojson_out = ts2statsZSArgs.geojson_out := by
  obtain ⟨-, hstat, htch, hgeo, -, -, -, -, -⟩ :=
    init_ok_inv σ env _ tr st h
  refine ⟨rfl, rfl, ?_, rfl, ?_, ?_⟩
  · show st.all_touched = false
    rw [htch]
    rfl
  · show st.statistics = ts2statsZSArgs.stats
    rw [hstat]
    rfl
  · show st.geojson = ts2statsZSArgs.geojson_out
    rw [hgeo]
    rfl

/-- Witness for C8 at the demo default construction. -/
theorem C8_witness :
    (zsArgsOf demoInitState).nodata = -999 ∧
    ts2statsZSArgs.nodata = -9999 ∧
    (zsArgsOf demoInitState).all_touched = false ∧
    ts2statsZSArgs.all_touched = true ∧
    (zsArgsOf demoInitState).stats = ts2statsZSArgs.stats ∧
    (zsArgsOf demoInitState).geojson_out = ts2statsZSArgs.geojson_out :=
  C8_divergent_zs_defaults Nat demoEnv "a.zip" "d.nc" demoInitTrace
    demoInitState rfl

/-! ## C3 -/

/-- A name found by the `.shp` scan is one of the extracted files. -/
theorem findShp_mem {files : List String} {n : String}
    (h : findShp files = some n) : n ∈ files := by
  unfold findShp at h
  have h3 : n ∈ (files.filter (fun f => pyEndsWith f ".shp")).getLast? := by
    rw [h]; rfl
  obtain ⟨hne, heq⟩ := List.mem_getLast?_eq_getLast h3
  rw [heq]
  exact List.mem_of_mem_filter (List.getLast_mem hne)

/-- Counterexample to C3 as stated: over `demoEnv`, constructing with the
existing archive `a.zip` and the missing raster path `missing.nc` does
raise the missing-file error — but only *after* the archive has been
extracted: the first recorded action is the archive extraction. -/
theorem C3_counterexample :
    init Nat demoEnv (defaultInitArgs "a.zip" "missing.nc") =
      ([.extractArchive "a.zip", .checkFileExists "/tmpdir/b.shp",
        .checkFileExists "missing.nc"],
       .error (.missingFileError "missing.nc")) ∧
    (init Nat demoEnv (defaultInitArgs "a.zip" "missing.nc")).1.head? =
      some (.extractArchive "a.zip") := by
  constructor <;> rfl

/-- **C3 (amended)**: `ts_to_stats` raises the missing-file error at entry,
before any parsing, for a missing archive path and for a missing raster
path.  `NetCDF2Stats.__init__`, however, extracts the archive first: a
missing raster path raises the missing-file error only after the archive
extraction (though still before the vector or raster files are read), and
its trace contains no read or open events. -/
theorem C3_missing_file_checks :
    (∀ {ρ γ : Type} (σ : Type) (env : Env ρ γ)
        (zs : ZSCallArgs → γ → List σ) (dg : ρ → ρ) (arch ts : String),
      env.fileExists arch = false →
      ts_to_stats σ env zs dg arch ts =
        ([.checkFileExists arch], .error (.missingFileError arch))) ∧
    (∀ {ρ γ : Type} (σ : Type) (env : Env ρ γ)
        (zs : ZSCallArgs → γ → List σ) (dg : ρ → ρ) (arch ts : String),
      env.fileExists arch = true → env.fileExists ts = false →
      ts_to_stats σ env zs dg arch ts =
        ([.checkFileExists arch, .checkFileExists ts],
         .error (.missingFileError ts))) ∧
    (∀ {ρ γ : Type} (σ : Type) (env : Env ρ γ) (a : InitArgs)
        (fmt shpName : String),
      a.output_format = some fmt →
      acceptedFormats.contains a.output_format = true →
      env.fileExists a.shape_archive = true →
      findShp (env.archiveFiles a.shape_archive) = some shpName →
      env.fileExists a.nc_file = false →
      ((env.archiveFiles a.shape_archive).map
          (pathJoin workdir)).contains a.nc_file = false →
      init σ env a =
        ([.extractArchive a.shape_archive,
          .checkFileExists (pathJoin workdir shpName),
          .checkFileExists a.nc_file],
         .error (.missingFileError a.nc_file))) := by
  refine ⟨?_, ?_, ?_⟩
  · intro ρ γ σ env zs dg arch ts h
    simp [ts_to_stats, check_if_file_exists, h]
  · intro ρ γ σ env zs dg arch ts h1 h2
    simp [ts_to_stats, check_if_file_exists, h1, h2]
  · intro ρ γ σ env a fmt shpName hfmt hacc harch hshp hncmiss hncnotin
    have hacc2 : (some fmt : Option String) ∈ acceptedFormats := by
      rw [← hfmt]
      exact List.elem_iff.mp hacc
    have hex1 : ∃ x ∈ env.archiveFiles a.shape_archive,
        pathJoin workdir x = pathJoin workdir shpName :=
      ⟨shpName, findShp_mem hshp, rfl⟩
    have hex2 : ¬ ∃ x ∈ env.archiveFiles a.shape_archive,
        pathJoin workdir x = a.nc_file := by
      rintro ⟨x, hx, he⟩
      have hmem : a.nc_file ∈
          (env.archiveFiles a.shape_archive).map (pathJoin workdir) :=
        he ▸ List.mem_map_of_mem _ hx
      have hnc2 : List.elem a.nc_file
          ((env.archiveFiles a.shape_archive).map (pathJoin workdir)) =
            false := hncnotin
      rw [List.elem_iff.mpr hmem] at hnc2
      cases hnc2
    simp [init, check_if_file_exists, hfmt, harch, hshp, hacc2, hex1, hex2,
      hncmiss]

/-- Witness for C3 (amended) at concrete environments. -/
theorem C3_witness :
    ts_to_stats Nat demoEnv demoZs id "nope.zip" "d.nc" =
      ([.checkFileExists "nope.zip"],
       .error (.missingFileError "nope.zip")) ∧
    ts_to_stats Nat demoEnv demoZs id "a.zip" "nope.nc" =
      ([.checkFileExists "a.zip", .checkFileExists "nope.nc"],
       .error (.missingFileError "nope.nc")) ∧
    init Nat demoEnv (defaultInitArgs "a.zip" "missing.nc") =
      ([.extractArchive "a.zip",
        .checkFileExists (pathJoin workdir "b.shp"),
        .checkFileExists "missing.nc"],
       .error (.missingFileError "missing.nc")) :=
  ⟨C3_missing_file_checks.1 Nat demoEnv demoZs id "nope.zip" "d.nc" rfl,
   C3_missing_file_checks.2.1 Nat demoEnv demoZs id "a.zip" "nope.nc" rfl rfl,
   C3_missing_file_checks.2.2 Nat demoEnv (defaultInitArgs "a.zip" "missing.nc")
     "csv" "b.shp" rfl rfl rfl rfl rfl rfl⟩

end Choppy
